import Mathlib

/-!
Verification development for the optax quick-start notebook
(`src/examples/quick_start.ipynb`).  The notebook is glue code over the
optax library; the library calls it makes (`adam`, `chain`,
`clip_by_global_norm`, `scale_by_adam`, `scale_by_schedule`, `scale`,
`inject_hyperparams`, `linear_schedule`, `apply_updates`, `l2_loss`) are
not part of the given sources, so they are modelled from the spec where a
claim needs them.  Exact real arithmetic is carried out over `ℚ`; the
square root used by norm-based transforms is kept as an explicit function
parameter, so every theorem holds for any square-root implementation.
-/

namespace OptaxQuickStart

/-- A parameter / gradient vector of shape `(2,)`, as used throughout the
notebook (`params = jnp.array([0.0, 0.0])`, rows of `xs` of shape `(2,)`). -/
abbrev Vec2 := ℚ × ℚ

/-- The linear model of the notebook: `network(params, x) = jnp.dot(params, x)`
for one input row `x`; the `jax.vmap` over rows is the `List.map` in
`compute_loss`. -/
def network (params x : Vec2) : ℚ :=
  params.1 * x.1 + params.2 * x.2

/-- Modelled from the spec: `optax.l2_loss` (the notebook's "loss function
(L2 Loss) comes from optax's common loss functions via `optax.l2_loss()`");
the optax implementation is not under `src`. The L2 loss of a prediction
against a target is half the squared difference. -/
def l2_loss (pred target : ℚ) : ℚ :=
  (pred - target) ^ 2 / 2

/-- The arithmetic mean of a list of rationals (`jnp.mean`); the mean of the
empty list is `0` (division by zero yields `0` in `ℚ`). -/
def mean (l : List ℚ) : ℚ :=
  l.sum / l.length

/-- The notebook's `compute_loss(params, x, y)`: the mean over the dataset of
the L2 loss of the vmapped network output against the labels. -/
def compute_loss (params : Vec2) (xs : List Vec2) (ys : List ℚ) : ℚ :=
  mean ((List.zip xs ys).map (fun xy => l2_loss (network params xy.1) xy.2))

/-- The scalar `target_params = 0.5` used to generate the data. -/
def target_params : ℚ := 1 / 2

/-- The target parameter vector: both components of the linear model equal
`target_params = 0.5` (the broadcast `xs * target_params`). -/
def targetVec : Vec2 := (target_params, target_params)

/-- Label generation of the notebook: `ys = jnp.sum(xs * target_params,
axis=-1)`, i.e. row-wise `0.5 * x₀ + 0.5 * x₁`. -/
def ysFor (xs : List Vec2) : List ℚ :=
  xs.map (fun x => x.1 * target_params + x.2 * target_params)

/-- The gradient of `compute_loss` with respect to `params`, modelled from
the calculus of the quadratic loss (`jax.grad` is the autodiff runtime,
outside the given sources): componentwise the mean over rows of
`(network params x - y) * x`. -/
def gradLoss (params : Vec2) (xs : List Vec2) (ys : List ℚ) : Vec2 :=
  (mean ((List.zip xs ys).map (fun xy => (network params xy.1 - xy.2) * xy.1.1)),
   mean ((List.zip xs ys).map (fun xy => (network params xy.1 - xy.2) * xy.1.2)))

/-- Modelled from the spec: `optax.apply_updates`, "a separate pure function
applies updates additively to parameters" (the optax implementation is not
under `src`).  Parameters and updates are arrays of matching shape; the
result is the elementwise sum. -/
def apply_updates (params updates : List ℚ) : List ℚ :=
  List.zipWith (· + ·) params updates

/-- `apply_updates` on the fixed-shape `(2,)` vectors of the training loops. -/
def applyUpdatesVec (params updates : Vec2) : Vec2 :=
  (params.1 + updates.1, params.2 + updates.2)

/- Helper lemmas about the loss at / around the target parameters. -/

lemma zip_ysFor_map (g : Vec2 → ℚ → ℚ) (xs : List Vec2) :
    ((List.zip xs (ysFor xs)).map (fun xy => g xy.1 xy.2)) =
      xs.map (fun x => g x (x.1 * target_params + x.2 * target_params)) := by
  induction xs with
  | nil => simp [ysFor]
  | cons a l ih =>
      simpa [ysFor] using ih

lemma map_zero_of_all_zero {α : Type} (f : α → ℚ) (xs : List α)
    (h : ∀ x, f x = 0) : xs.map f = List.replicate xs.length 0 := by
  induction xs with
  | nil => simp
  | cons a l ih => simp [h, ih, List.replicate]

lemma mean_replicate_zero (n : ℕ) : mean (List.replicate n 0) = 0 := by
  simp [mean]

lemma compute_loss_at_target (xs : List Vec2) :
    compute_loss targetVec xs (ysFor xs) = 0 := by
  unfold compute_loss
  rw [zip_ysFor_map (fun x y => l2_loss (network targetVec x) y) xs]
  rw [map_zero_of_all_zero _ xs (fun x => by
    simp only [l2_loss, network, targetVec, target_params]
    ring)]
  exact mean_replicate_zero _

lemma gradLoss_at_target (xs : List Vec2) :
    gradLoss targetVec xs (ysFor xs) = (0, 0) := by
  unfold gradLoss
  rw [zip_ysFor_map (fun x y => (network targetVec x - y) * x.1) xs,
    zip_ysFor_map (fun x y => (network targetVec x - y) * x.2) xs]
  rw [map_zero_of_all_zero _ xs (fun x => by
        simp only [network, targetVec, target_params]; ring),
    map_zero_of_all_zero _ xs (fun x => by
        simp only [network, targetVec, target_params]; ring)]
  simp [mean_replicate_zero]

lemma compute_loss_nonneg (p : Vec2) (xs : List Vec2) (ys : List ℚ) :
    0 ≤ compute_loss p xs ys := by
  unfold compute_loss mean
  apply div_nonneg
  · apply List.sum_nonneg
    intro a ha
    rcases List.mem_map.mp ha with ⟨xy, _, rfl⟩
    unfold l2_loss
    positivity
  · positivity

/-- C8: the target parameters are an exact global minimum of the authored
loss.  For any dataset `xs` with labels generated by the notebook's rule
`ys = sum(xs * 0.5, axis=-1)`: the loss at `params = [0.5, 0.5]` is exactly
`0`, the gradient of the loss there is the zero vector, and the loss is
nonnegative at every parameter vector. -/
theorem C8_target_is_global_minimum (xs : List Vec2) (p : Vec2) :
    compute_loss targetVec xs (ysFor xs) = 0 ∧
    gradLoss targetVec xs (ysFor xs) = (0, 0) ∧
    0 ≤ compute_loss p xs (ysFor xs) :=
  ⟨compute_loss_at_target xs, gradLoss_at_target xs,
    compute_loss_nonneg p xs (ysFor xs)⟩

/-- C4: `apply_updates` is additive: for parameter and update arrays of
matching shape the result has the same shape and every element is the sum of
the corresponding parameter and update elements (it is a pure function, so
its arguments are unmodified by construction). -/
theorem C4_apply_updates_additive (ps us : List ℚ) (h : ps.length = us.length) :
    (apply_updates ps us).length = ps.length ∧
    ∀ i : ℕ, (apply_updates ps us).getD i 0 = ps.getD i 0 + us.getD i 0 := by
  constructor
  · simp [apply_updates, h]
  · intro i
    induction ps generalizing us i with
    | nil =>
        have : us = [] := by
          cases us with
          | nil => rfl
          | cons b bs => simp at h
        subst this; simp [apply_updates]
    | cons a l ih =>
        cases us with
        | nil => simp at h
        | cons b bs =>
            cases i with
            | zero => simp [apply_updates]
            | succ j =>
                have hlen : l.length = bs.length := by simpa using h
                simpa [apply_updates] using ih bs hlen j

/-- Witness for C4 at a concrete pair of arrays. -/
theorem C4_apply_updates_additive_witness :
    (apply_updates [1, 2] [3, 4]).length = 2 ∧
    ∀ i : ℕ, (apply_updates [1, 2] [3, 4]).getD i 0 =
      List.getD [1, 2] i 0 + List.getD [3, 4] i 0 :=
  C4_apply_updates_additive [1, 2] [3, 4] (by decide)

/-! ### Gradient transformations

Modelled from the spec: "an optimizer object exposes an initialization
operation (returns initial state from parameters) and an update operation
(returns proposed updates and new state from gradients and current state)".
The optax `GradientTransformation` objects themselves are not under `src`. -/

/-- An optimizer object: an `init`/`update` pair over parameter type `P`,
update/gradient type `U` and state type `S`. -/
structure GradientTransformation (P U S : Type) where
  init : P → S
  update : U → S → U × S

/-- Modelled from the spec: "a chaining constructor composes a sequence of
such optimizer objects into one" (`optax.chain`).  The chained state is the
pair of component states; `update` feeds the first component's proposed
updates into the second component. -/
def chain2 {P U S1 S2 : Type} (t1 : GradientTransformation P U S1)
    (t2 : GradientTransformation P U S2) :
    GradientTransformation P U (S1 × S2) where
  init p := (t1.init p, t2.init p)
  update u s :=
    let r1 := t1.update u s.1
    let r2 := t2.update r1.1 s.2
    (r2.1, (r1.2, r2.2))

/-- Modelled from the spec: `optax.scale(c)`, the "sign-flip scaling stage"
when `c = -1`: a stateless transform multiplying the updates by `c`. -/
def scaleTx (c : ℚ) : GradientTransformation Vec2 Vec2 Unit where
  init _ := ()
  update u _ := ((c * u.1, c * u.2), ())

/-- Modelled from the spec: `optax.scale_by_schedule(sched)`, the
"schedule-driven scaling stage": its state is a step count, the updates are
multiplied by the schedule value at the current count, and the count is
incremented. -/
def scale_by_schedule (sched : ℕ → ℚ) : GradientTransformation Vec2 Vec2 ℕ where
  init _ := 0
  update u c := ((sched c * u.1, sched c * u.2), c + 1)

/-- The state of the adaptive-moment stage: a step count and the first and
second moment estimates. -/
structure ScaleByAdamState where
  count : ℕ
  mu : Vec2
  nu : Vec2
  deriving DecidableEq

/-- Modelled from the spec: `optax.scale_by_adam()`, the "adaptive-moment
stage" ("how `adam` computes its internal moment estimates" is outside the
given sources): exponential moving averages of the gradient and of its
square with the standard decay rates `b1 = 0.9`, `b2 = 0.999`, bias
correction, and updates `mu_hat / (sqrt(nu_hat) + eps)`; the square root is
an explicit parameter `sqrtf`, so every theorem below holds for any
square-root implementation. -/
def scale_by_adam (sqrtf : ℚ → ℚ) : GradientTransformation Vec2 Vec2 ScaleByAdamState where
  init _ := ⟨0, (0, 0), (0, 0)⟩
  update g s :=
    let b1 : ℚ := 9 / 10
    let b2 : ℚ := 999 / 1000
    let eps : ℚ := 1 / 100000000
    let c := s.count + 1
    let mu : Vec2 := (b1 * s.mu.1 + (1 - b1) * g.1, b1 * s.mu.2 + (1 - b1) * g.2)
    let nu : Vec2 := (b2 * s.nu.1 + (1 - b2) * g.1 ^ 2, b2 * s.nu.2 + (1 - b2) * g.2 ^ 2)
    let muh : Vec2 := (mu.1 / (1 - b1 ^ c), mu.2 / (1 - b1 ^ c))
    let nuh : Vec2 := (nu.1 / (1 - b2 ^ c), nu.2 / (1 - b2 ^ c))
    ((muh.1 / (sqrtf nuh.1 + eps), muh.2 / (sqrtf nuh.2 + eps)), ⟨c, mu, nu⟩)

/-- Modelled from the spec: `optax.adam(lr)` as used by the notebook's first
loop: the adaptive-moment stage followed by scaling with `-lr` (descent,
since `apply_updates` is additive). -/
def adam (sqrtf : ℚ → ℚ) (lr : ℚ) :
    GradientTransformation Vec2 Vec2 (ScaleByAdamState × Unit) :=
  chain2 (scale_by_adam sqrtf) (scaleTx (-lr))

/-- Modelled from the spec: `optax.clip_by_global_norm(max_norm)`
("global-norm clipping"): a stateless transform that rescales the updates to
global norm `max_norm` whenever their global norm exceeds it. -/
def clip_by_global_norm (sqrtf : ℚ → ℚ) (maxNorm : ℚ) :
    GradientTransformation Vec2 Vec2 Unit where
  init _ := ()
  update g _ :=
    let gnorm := sqrtf (g.1 ^ 2 + g.2 ^ 2)
    let factor := if gnorm < maxNorm then 1 else maxNorm / gnorm
    ((factor * g.1, factor * g.2), ())

/-- The notebook's composed `gradient_transform`:
`chain(clip_by_global_norm(1.0), scale_by_adam(), scale_by_schedule(scheduler),
scale(-1.0))`.  The exponential-decay scheduler evaluates a real power
`0.99 ^ (count / 1000)`, so the schedule is kept as an explicit parameter
`sched`. -/
def gradient_transform (sqrtf : ℚ → ℚ) (sched : ℕ → ℚ) :
    GradientTransformation Vec2 Vec2
      (Unit × (ScaleByAdamState × (ℕ × Unit))) :=
  chain2 (clip_by_global_norm sqrtf 1)
    (chain2 (scale_by_adam sqrtf) (chain2 (scale_by_schedule sched) (scaleTx (-1))))

/-! ### Hyperparameter injection -/

/-- Modelled from the spec: `optax.linear_schedule(init_value, end_value,
transition_steps)`: a pure function of a step count, moving linearly from
`init_value` to `end_value` over `transition_steps` steps and constant
afterwards. -/
def linear_schedule (a b : ℚ) (steps : ℕ) (k : ℕ) : ℚ :=
  a + (b - a) * ((min k steps : ℕ) : ℚ) / (steps : ℚ)

/-- The notebook's schedule for the injected hyperparameter:
`linear_schedule(1.0, 0.0, transition_steps=99)`. -/
def maxNormSchedule : ℕ → ℚ := linear_schedule 1 0 99

/-- `clip_by_global_norm` lifted to optional trees: the notebook feeds
`None` for both parameters and gradients, and on `None` the clipping has
nothing to transform. -/
def clipOpt (sqrtf : ℚ → ℚ) (maxNorm : ℚ) :
    GradientTransformation (Option Vec2) (Option Vec2) Unit where
  init _ := ()
  update g _ :=
    (g.map (fun v =>
      let gnorm := sqrtf (v.1 ^ 2 + v.2 ^ 2)
      let factor := if gnorm < maxNorm then 1 else maxNorm / gnorm
      (factor * v.1, factor * v.2)), ())

/-- The state of the hyperparameter-injected transform: a step count, the
inspectable hyperparameter field `hyperparams['max_norm']`, and the wrapped
transform's state. -/
structure InjectState where
  count : ℕ
  maxNorm : ℚ
  inner : Unit
  deriving DecidableEq

/-- Modelled from the spec: `optax.inject_hyperparams(optax.clip_by_global_norm)`
applied to a scheduled `max_norm` ("a decorator-like constructor wraps an
optimizer constructor so specified keyword arguments become inspectable,
schedulable fields of the resulting state").  `init` evaluates the schedule
at count `0`; each `update` increments the count, re-evaluates the schedule
there, and runs the wrapped clipping transform with the current value. -/
def inject_clip (sqrtf : ℚ → ℚ) (sched : ℕ → ℚ) :
    GradientTransformation (Option Vec2) (Option Vec2) InjectState where
  init p := ⟨0, sched 0, (clipOpt sqrtf (sched 0)).init p⟩
  update g s :=
    let c := s.count + 1
    let h := sched c
    let r := (clipOpt sqrtf h).update g s.inner
    (r.1, ⟨c, h, r.2⟩)

/-- The notebook's `decaying_global_norm_tx`. -/
def decayingTx (sqrtf : ℚ → ℚ) :
    GradientTransformation (Option Vec2) (Option Vec2) InjectState :=
  inject_clip sqrtf maxNormSchedule

/-- The optimizer state after `init(None)` followed by `k` calls of
`update(None, ·)`, each feeding back the returned state — the notebook's
`for _ in range(100)` loop. -/
def injectAfter (sqrtf : ℚ → ℚ) : ℕ → InjectState
  | 0 => (decayingTx sqrtf).init none
  | k + 1 => ((decayingTx sqrtf).update none (injectAfter sqrtf k)).2

lemma injectAfter_count (sqrtf : ℚ → ℚ) (k : ℕ) :
    (injectAfter sqrtf k).count = k := by
  induction k with
  | zero => rfl
  | succ j ih => simp [injectAfter, decayingTx, inject_clip, ih]

lemma injectAfter_maxNorm (sqrtf : ℚ → ℚ) (k : ℕ) :
    (injectAfter sqrtf k).maxNorm = maxNormSchedule k := by
  cases k with
  | zero => rfl
  | succ j =>
      simp [injectAfter, decayingTx, inject_clip, injectAfter_count]

lemma maxNormSchedule_zero : maxNormSchedule 0 = 1 := by
  simp [maxNormSchedule, linear_schedule]

lemma maxNormSchedule_late (k : ℕ) (h : 99 ≤ k) : maxNormSchedule k = 0 := by
  unfold maxNormSchedule linear_schedule
  rw [min_eq_right h]
  norm_num

/-- C3: for the hyperparameter-injected clipping transform with
`max_norm = linear_schedule(1.0, 0.0, 99)`, the state immediately after
`init(None)` reports `hyperparams['max_norm'] = 1.0` exactly, and the state
after 100 feedback calls of `update(None, ·)` reports
`hyperparams['max_norm'] = 0.0` exactly — for any square-root
implementation used by the wrapped clipping. -/
theorem C3_injected_max_norm_endpoints (sqrtf : ℚ → ℚ) :
    ((decayingTx sqrtf).init none).maxNorm = 1 ∧
    (injectAfter sqrtf 100).maxNorm = 0 := by
  constructor
  · show (injectAfter sqrtf 0).maxNorm = 1
    rw [injectAfter_maxNorm]; exact maxNormSchedule_zero
  · rw [injectAfter_maxNorm]
    exact maxNormSchedule_late 100 (by norm_num)

/-- C9: the injected transform's schedule advances purely on the count of
update calls: `update` accepts `None` gradients (returning `None` updates,
no error), after `k` update calls the state's count is `k` and its
`hyperparams['max_norm']` equals the linear-schedule value at step `k`, and
that value is exactly `0` for every `k ≥ 99`, not only at `k = 100`. -/
theorem C9_schedule_counts_update_calls (sqrtf : ℚ → ℚ) (k : ℕ) (s : InjectState) :
    ((decayingTx sqrtf).update none s).1 = none ∧
    (injectAfter sqrtf k).count = k ∧
    (injectAfter sqrtf k).maxNorm = maxNormSchedule k ∧
    (99 ≤ k → (injectAfter sqrtf k).maxNorm = 0) := by
  refine ⟨rfl, injectAfter_count sqrtf k, injectAfter_maxNorm sqrtf k, fun h => ?_⟩
  rw [injectAfter_maxNorm]; exact maxNormSchedule_late k h

/-- Witness for C9 at the concrete step count `99` with the identity in
place of the square root. -/
theorem C9_schedule_counts_update_calls_witness :
    (injectAfter id 99).maxNorm = 0 :=
  (C9_schedule_counts_update_calls id 99 ((decayingTx id).init none)).2.2.2
    (by norm_num)

/-- C5: every optimizer object used in the notebook — `adam`, the chained
`gradient_transform`, and the hyperparameter-injected transform — satisfies
the interface contract: `init` produces the initial optimizer state from the
parameters alone (shown by computing it explicitly), and `update` produces a
pair of proposed updates and a successor state (the successor advancing the
transform's step count where it keeps one).  Holds for any square-root
implementation and any schedule. -/
theorem C5_init_update_contract (sqrtf : ℚ → ℚ) (sched : ℕ → ℚ) (lr : ℚ)
    (p g : Vec2) (pp gi : Option Vec2)
    (sa : ScaleByAdamState × Unit)
    (sc : Unit × (ScaleByAdamState × (ℕ × Unit)))
    (si : InjectState) :
    (adam sqrtf lr).init p = (⟨0, (0, 0), (0, 0)⟩, ()) ∧
    (adam sqrtf lr).update g sa =
      (((adam sqrtf lr).update g sa).1, ((adam sqrtf lr).update g sa).2) ∧
    ((adam sqrtf lr).update g sa).2.1.count = sa.1.count + 1 ∧
    (gradient_transform sqrtf sched).init p = ((), (⟨0, (0, 0), (0, 0)⟩, (0, ()))) ∧
    ((gradient_transform sqrtf sched).update g sc).2.2.2.1 = sc.2.2.1 + 1 ∧
    (decayingTx sqrtf).init pp = ⟨0, maxNormSchedule 0, ()⟩ ∧
    ((decayingTx sqrtf).update gi si).2.count = si.count + 1 :=
  ⟨rfl, rfl, rfl, rfl, rfl, rfl, rfl⟩

/-! ### Control flow of the notebook: assertions are the only failures -/

/-- A Python `assert cond, msg` statement: it raises (halting execution with
the message) exactly when the condition is false, and otherwise does
nothing. -/
def assertStmt (cond : Bool) (msg : String) : Except String Unit :=
  if cond then Except.ok () else Except.error msg

/-- The message of the two convergence assertions. -/
def msgParams : String :=
  "Optimization should retrive the target params used to generate the data."

/-- The message of the assertion after `init(None)`. -/
def msgStart : String := "Max norm should start at 1.0"

/-- The message of the assertion after the 100 update calls. -/
def msgEnd : String := "Max norm should end at 0.0"

/-- The notebook's failure skeleton, in execution order: the first
convergence assertion, the second convergence assertion, the max-norm start
assertion, the max-norm end assertion.  Each `bᵢ` is the truth value of the
corresponding assertion's condition; the pure array computations between the
assertions raise nothing.  There is no catching, recovery, or retry
anywhere, so a raise short-circuits the rest. -/
def notebookAsserts (b1 b2 b3 b4 : Bool) : Except String Unit := do
  assertStmt b1 msgParams
  assertStmt b2 msgParams
  assertStmt b3 msgStart
  assertStmt b4 msgEnd

/-- C7: the notebook's only failure behaviour is assertion failure: the run
completes normally iff all four assertion conditions hold, and when an
assertion's condition is false the run halts with exactly that assertion's
message, independently of every later condition (no subsequent statement
runs, no recovery). -/
theorem C7_asserts_are_only_failures (b1 b2 b3 b4 : Bool) :
    (notebookAsserts b1 b2 b3 b4 = Except.ok () ↔
      b1 = true ∧ b2 = true ∧ b3 = true ∧ b4 = true) ∧
    (∀ c2 c3 c4 : Bool, notebookAsserts false c2 c3 c4 = Except.error msgParams) ∧
    (∀ c3 c4 : Bool, notebookAsserts true false c3 c4 = Except.error msgParams) ∧
    (∀ c4 : Bool, notebookAsserts true true false c4 = Except.error msgStart) ∧
    notebookAsserts true true true false = Except.error msgEnd ∧
    notebookAsserts true true true true = Except.ok () := by
  refine ⟨?_, ?_, ?_, ?_, rfl, rfl⟩
  · cases b1 <;> cases b2 <;> cases b3 <;> cases b4 <;>
      simp [notebookAsserts, assertStmt, msgParams, msgStart, msgEnd, Bind.bind, Except.bind]
  · intro c2 c3 c4; rfl
  · intro c3 c4; rfl
  · intro c4; rfl

/-- Witness for C7 at concrete assertion outcomes. -/
theorem C7_asserts_are_only_failures_witness :
    notebookAsserts false true true true = Except.error msgParams :=
  (C7_asserts_are_only_failures false true true true).2.1 true true true

/-! ### The two training experiments and determinism -/

/-- One step of the notebook's update loop: compute the gradient of the
loss on the dataset, ask the transform for the updates and successor state,
and apply the updates additively to the parameters. -/
def trainStep {S : Type} (t : GradientTransformation Vec2 Vec2 S)
    (xs : List Vec2) (ys : List ℚ) (ps : Vec2 × S) : Vec2 × S :=
  let g := gradLoss ps.1 xs ys
  let r := t.update g ps.2
  (applyUpdatesVec ps.1 r.1, r.2)

/-- The notebook's update loop: `n` iterations of `trainStep` starting from
the initial parameters and `t.init` of those parameters; returns the final
parameters. -/
def trainLoop {S : Type} (t : GradientTransformation Vec2 Vec2 S)
    (xs : List Vec2) (ys : List ℚ) (p0 : Vec2) (n : ℕ) : Vec2 :=
  ((trainStep t xs ys)^[n] (p0, t.init p0)).1

/-- `start_learning_rate = 1e-1`. -/
def startLearningRate : ℚ := 1 / 10

/-- Both loops start from `params = jnp.array([0.0, 0.0])`. -/
def initialParams : Vec2 := (0, 0)

/-- The dataset `xs = jax.random.normal(key, (16, 2))` with
`key = jax.random.PRNGKey(42)`: the PRNG draw is modelled as an abstract
deterministic function `gen` of the seed, applied to the fixed seed `42`;
`xs` is assigned exactly once. -/
def xsData (gen : ℕ → List Vec2) : List Vec2 := gen 42

/-- The labels `ys`, generated once from `xs`. -/
def ysData (gen : ℕ → List Vec2) : List ℚ := ysFor (xsData gen)

/-- The first experiment: 1000 steps of the update loop with the `adam`
optimizer on the shared dataset. -/
def experimentOne (gen : ℕ → List Vec2) (sqrtf : ℚ → ℚ) : Vec2 :=
  trainLoop (adam sqrtf startLearningRate) (xsData gen) (ysData gen) initialParams 1000

/-- The second experiment: 1000 steps of the update loop with the chained
`gradient_transform` on the same shared dataset and the same initial
parameters. -/
def experimentTwo (gen : ℕ → List Vec2) (sqrtf : ℚ → ℚ) (sched : ℕ → ℚ) : Vec2 :=
  trainLoop (gradient_transform sqrtf sched) (xsData gen) (ysData gen) initialParams 1000

/-- C10: the dataset is frozen after creation and shared by both
experiments: `xs`/`ys` are single definitions produced once from the seed
draw (nothing downstream rebinds them — both experiments consume exactly
`xsData gen` and `ysData gen`), both 1000-step loops start from the same
initial parameters `[0.0, 0.0]`, and the two experiments are the same
`trainLoop` applied to the same dataset and initial point, differing only in
the gradient transformation passed. -/
theorem C10_frozen_dataset_shared_by_experiments
    (gen : ℕ → List Vec2) (sqrtf : ℚ → ℚ) (sched : ℕ → ℚ) :
    xsData gen = gen 42 ∧
    ysData gen = ysFor (gen 42) ∧
    initialParams = (0, 0) ∧
    experimentOne gen sqrtf =
      trainLoop (adam sqrtf startLearningRate) (xsData gen) (ysData gen)
        initialParams 1000 ∧
    experimentTwo gen sqrtf sched =
      trainLoop (gradient_transform sqrtf sched) (xsData gen) (ysData gen)
        initialParams 1000 :=
  ⟨rfl, rfl, rfl, rfl, rfl⟩

/-- Everything an execution of the notebook computes: the dataset, the two
final parameter vectors, the injected hyperparameter at the start and after
the 100 calls, and the four assertion outcomes (the convergence checks use
the runtime's `allclose` predicate, kept abstract). -/
def notebookOutputs (gen : ℕ → List Vec2) (sqrtf : ℚ → ℚ) (sched : ℕ → ℚ)
    (allclose : Vec2 → ℚ → Bool) :
    (List Vec2 × List ℚ) × (Vec2 × Vec2) × (ℚ × ℚ) × (Bool × Bool × Bool × Bool) :=
  let xs := xsData gen
  let ys := ysData gen
  let p1 := experimentOne gen sqrtf
  let p2 := experimentTwo gen sqrtf sched
  let h0 := ((decayingTx sqrtf).init none).maxNorm
  let h100 := (injectAfter sqrtf 100).maxNorm
  ((xs, ys), (p1, p2), (h0, h100),
    (allclose p1 target_params, allclose p2 target_params,
      decide (h0 = 1), decide (h100 = 0)))

/-- C6: the notebook is deterministic: its entire computation is a pure
function of the fixed-seed PRNG draw and the runtime's numeric functions
(square root, the real-power schedule, `allclose`); two complete executions
over the same runtime compute identical `xs`, `ys`, identical final
parameters in both training loops, and identical outcomes for all four
assertions.  There is no other source of nondeterminism in the model. -/
theorem C6_notebook_deterministic
    (gen1 gen2 : ℕ → List Vec2) (sqrtf1 sqrtf2 : ℚ → ℚ)
    (sched1 sched2 : ℕ → ℚ) (ac1 ac2 : Vec2 → ℚ → Bool)
    (hg : gen1 = gen2) (hs : sqrtf1 = sqrtf2) (hc : sched1 = sched2)
    (ha : ac1 = ac2) :
    notebookOutputs gen1 sqrtf1 sched1 ac1 =
      notebookOutputs gen2 sqrtf2 sched2 ac2 := by
  subst hg; subst hs; subst hc; subst ha; rfl

/-- Witness for C6 at a concrete runtime instantiation. -/
theorem C6_notebook_deterministic_witness :
    notebookOutputs (fun _ => []) id (fun _ => 1) (fun _ _ => true) =
      notebookOutputs (fun _ => []) id (fun _ => 1) (fun _ _ => true) :=
  C6_notebook_deterministic _ _ _ _ _ _ _ _ rfl rfl rfl rfl

end OptaxQuickStart
